import Mathlib

/-!
Verification of the consumer-side SurfaceTexture state machine
(`libs/gui/SurfaceTexture.cpp`): the 4x4 column-major matrix kernel, the
transform composer, the slot table, and the `updateTexImage` / `abandon` /
`onBuffersReleased` operations, shallowly embedded in Lean.

Floating-point arithmetic of the source is modelled over `ℚ`: every value
appearing in the verified computations (matrix entries in {-1,0,1}, crop
factors with power-of-two denominators) is an exactly representable dyadic
rational, on which the source's `float` operations are exact.

External handles (EGL displays, contexts, images, sync objects) are
modelled as naturals with `0` as the respective `EGL_NO_*` sentinel, which
mirrors their definitions as null pointers.
-/

/-! ## Matrix kernel (lines 62-97, 609-629)

A `float[16]` column-major matrix is a structure with one field per array
cell, `e0` standing for index 0 and so on. -/

@[ext]
structure Mtx where
  e0 : ℚ
  e1 : ℚ
  e2 : ℚ
  e3 : ℚ
  e4 : ℚ
  e5 : ℚ
  e6 : ℚ
  e7 : ℚ
  e8 : ℚ
  e9 : ℚ
  e10 : ℚ
  e11 : ℚ
  e12 : ℚ
  e13 : ℚ
  e14 : ℚ
  e15 : ℚ
deriving DecidableEq

def mtxIdentity : Mtx :=
  ⟨1, 0, 0, 0,
   0, 1, 0, 0,
   0, 0, 1, 0,
   0, 0, 0, 1⟩

def mtxFlipH : Mtx :=
  ⟨-1, 0, 0, 0,
   0, 1, 0, 0,
   0, 0, 1, 0,
   1, 0, 0, 1⟩

def mtxFlipV : Mtx :=
  ⟨1, 0, 0, 0,
   0, -1, 0, 0,
   0, 0, 1, 0,
   0, 1, 0, 1⟩

def mtxRot90 : Mtx :=
  ⟨0, 1, 0, 0,
   -1, 0, 0, 0,
   0, 0, 1, 0,
   1, 0, 0, 1⟩

def mtxRot180 : Mtx :=
  ⟨-1, 0, 0, 0,
   0, -1, 0, 0,
   0, 0, 1, 0,
   1, 1, 0, 1⟩

def mtxRot270 : Mtx :=
  ⟨0, -1, 0, 0,
   1, 0, 0, 0,
   0, 0, 1, 0,
   0, 1, 0, 1⟩

/-- `mtxMul out a b` of lines 609-629, transcribed entry by entry. -/
def mtxMul (a b : Mtx) : Mtx :=
  ⟨a.e0*b.e0 + a.e4*b.e1 + a.e8*b.e2 + a.e12*b.e3,
   a.e1*b.e0 + a.e5*b.e1 + a.e9*b.e2 + a.e13*b.e3,
   a.e2*b.e0 + a.e6*b.e1 + a.e10*b.e2 + a.e14*b.e3,
   a.e3*b.e0 + a.e7*b.e1 + a.e11*b.e2 + a.e15*b.e3,
   a.e0*b.e4 + a.e4*b.e5 + a.e8*b.e6 + a.e12*b.e7,
   a.e1*b.e4 + a.e5*b.e5 + a.e9*b.e6 + a.e13*b.e7,
   a.e2*b.e4 + a.e6*b.e5 + a.e10*b.e6 + a.e14*b.e7,
   a.e3*b.e4 + a.e7*b.e5 + a.e11*b.e6 + a.e15*b.e7,
   a.e0*b.e8 + a.e4*b.e9 + a.e8*b.e10 + a.e12*b.e11,
   a.e1*b.e8 + a.e5*b.e9 + a.e9*b.e10 + a.e13*b.e11,
   a.e2*b.e8 + a.e6*b.e9 + a.e10*b.e10 + a.e14*b.e11,
   a.e3*b.e8 + a.e7*b.e9 + a.e11*b.e10 + a.e15*b.e11,
   a.e0*b.e12 + a.e4*b.e13 + a.e8*b.e14 + a.e12*b.e15,
   a.e1*b.e12 + a.e5*b.e13 + a.e9*b.e14 + a.e13*b.e15,
   a.e2*b.e12 + a.e6*b.e13 + a.e10*b.e14 + a.e14*b.e15,
   a.e3*b.e12 + a.e7*b.e13 + a.e11*b.e14 + a.e15*b.e15⟩

/-! ## Rect and transform flags -/

/-- Android `Rect` (pixel-space crop rectangle), fields as in `ui/Rect.h`. -/
structure Rect where
  left : Int
  top : Int
  right : Int
  bottom : Int
deriving DecidableEq

def Rect.width (r : Rect) : Int := r.right - r.left

def Rect.height (r : Rect) : Int := r.bottom - r.top

/-- Modelled from the spec: the notion of an empty crop rectangle
(`Rect::isEmpty` of `ui/Rect.h`, which is not under `src/`): a rectangle is
empty when its width or height is not positive. -/
def Rect.isEmpty (r : Rect) : Bool := r.width ≤ 0 || r.height ≤ 0

/-- Modelled from the spec: transform flag bit 0 = FLIP_H
(`NATIVE_WINDOW_TRANSFORM_FLIP_H` of `system/window.h`, not under `src/`). -/
def NATIVE_WINDOW_TRANSFORM_FLIP_H : Nat := 1

/-- Modelled from the spec: transform flag bit 1 = FLIP_V. -/
def NATIVE_WINDOW_TRANSFORM_FLIP_V : Nat := 2

/-- Modelled from the spec: transform flag bit 2 = ROT_90. -/
def NATIVE_WINDOW_TRANSFORM_ROT_90 : Nat := 4

/-! ## Transform composer (lines 323-412) -/

/-- The crop factors `(tx, ty, sx, sy)` of lines 352-396, for buffer
dimensions `W × H`. -/
def cropParams (crop : Rect) (W H : Nat) : ℚ × ℚ × ℚ × ℚ :=
  if crop.isEmpty = false then
    let txPair : ℚ × Nat :=
      if 0 < crop.left then (((crop.left : ℚ) + 1) / (W : ℚ), 1) else (0, 0)
    let xshrink : Nat :=
      if crop.right < (W : Int) then txPair.2 + 1 else txPair.2
    let tyPair : ℚ × Nat :=
      if crop.bottom < (H : Int) then
        ((((H : ℚ) - (crop.bottom : ℚ)) + 1) / (H : ℚ), 1)
      else (0, 0)
    let yshrink : Nat :=
      if 0 < crop.top then tyPair.2 + 1 else tyPair.2
    let sx : ℚ := ((crop.width : ℚ) - (xshrink : ℚ)) / (W : ℚ)
    let sy : ℚ := ((crop.height : ℚ) - (yshrink : ℚ)) / (H : ℚ)
    (txPair.1, tyPair.1, sx, sy)
  else (0, 0, 1, 1)

/-- `SurfaceTexture::computeCurrentTransformMatrix` (lines 323-412) as a
function of the current transform flags, crop, and buffer dimensions. -/
def computeCurrentTransformMatrix (transform : Nat) (crop : Rect) (W H : Nat) : Mtx :=
  let xform := mtxIdentity
  let xform :=
    if transform &&& NATIVE_WINDOW_TRANSFORM_FLIP_H ≠ 0 then mtxMul xform mtxFlipH else xform
  let xform :=
    if transform &&& NATIVE_WINDOW_TRANSFORM_FLIP_V ≠ 0 then mtxMul xform mtxFlipV else xform
  let xform :=
    if transform &&& NATIVE_WINDOW_TRANSFORM_ROT_90 ≠ 0 then mtxMul xform mtxRot90 else xform
  let p := cropParams crop W H
  let cropMtx : Mtx :=
    ⟨p.2.2.1, 0, 0, 0,
     0, p.2.2.2, 0, 0,
     0, 0, 1, 0,
     p.1, p.2.1, 0, 1⟩
  let mtxBeforeFlipV := mtxMul cropMtx xform
  mtxMul mtxFlipV mtxBeforeFlipV

/-! ## Claim theorems: matrix kernel and composer -/

set_option maxHeartbeats 1600000 in
/-- Claim C10 (confirmed): under `mtxMul`, FLIP_H and FLIP_V are involutions
and ROT_90 composed with itself four times is the identity, exactly. -/
theorem mtx_flip_rot_involutions :
    mtxMul mtxFlipH mtxFlipH = mtxIdentity
    ∧ mtxMul mtxFlipV mtxFlipV = mtxIdentity
    ∧ mtxMul mtxRot90 (mtxMul mtxRot90 (mtxMul mtxRot90 mtxRot90)) = mtxIdentity := by
  refine ⟨?_, ?_, ?_⟩ <;>
    · ext <;> norm_num [mtxMul, mtxFlipH, mtxFlipV, mtxRot90, mtxIdentity]

/-- Claim C6 (confirmed): for every buffer dimension, with an empty crop and
transform flags 0 the composed matrix is exactly the FLIP_V literal. -/
theorem computeCurrentTransformMatrix_empty_crop (W H : Nat) (crop : Rect)
    (hempty : crop.isEmpty = true) :
    computeCurrentTransformMatrix 0 crop W H = mtxFlipV := by
  have hp : cropParams crop W H = (0, 0, 1, 1) := by
    unfold cropParams
    rw [hempty]
    simp
  have hH : ¬(0 &&& NATIVE_WINDOW_TRANSFORM_FLIP_H ≠ 0) := by decide
  have hV : ¬(0 &&& NATIVE_WINDOW_TRANSFORM_FLIP_V ≠ 0) := by decide
  have hR : ¬(0 &&& NATIVE_WINDOW_TRANSFORM_ROT_90 ≠ 0) := by decide
  simp only [computeCurrentTransformMatrix, hp, if_neg hH, if_neg hV, if_neg hR]
  ext <;> norm_num [mtxMul, mtxFlipV, mtxIdentity]

/-- Witness for C6 at `crop = (0,0,0,0)`, `W = H = 256`. -/
theorem computeCurrentTransformMatrix_empty_crop_witness :
    computeCurrentTransformMatrix 0 ⟨0, 0, 0, 0⟩ 256 256 = mtxFlipV :=
  computeCurrentTransformMatrix_empty_crop 256 256 ⟨0, 0, 0, 0⟩ (by decide)

set_option maxHeartbeats 1600000 in
/-- Claim C5 (confirmed): for transform 0, crop `(1,1,255,255)` and a 256x256
buffer, the composer computes `tx = 2/256`, `ty = 2/256`,
`sx = sy = (254-2)/256`, and the final matrix is FLIP_V times the crop matrix
with diagonal `(sx, sy, 1, 1)` and translation column `(tx, ty, 0, 1)`. -/
theorem computeCurrentTransformMatrix_s3 :
    cropParams ⟨1, 1, 255, 255⟩ 256 256 = (2/256, 2/256, (254-2)/256, (254-2)/256)
    ∧ computeCurrentTransformMatrix 0 ⟨1, 1, 255, 255⟩ 256 256 =
      mtxMul mtxFlipV
        ⟨(254-2)/256, 0, 0, 0,
         0, (254-2)/256, 0, 0,
         0, 0, 1, 0,
         2/256, 2/256, 0, 1⟩ := by
  have hp : cropParams ⟨1, 1, 255, 255⟩ 256 256 = (2/256, 2/256, (254-2)/256, (254-2)/256) := by
    norm_num [cropParams, Rect.isEmpty, Rect.width, Rect.height]
  refine ⟨hp, ?_⟩
  have hH : ¬(0 &&& NATIVE_WINDOW_TRANSFORM_FLIP_H ≠ 0) := by decide
  have hV : ¬(0 &&& NATIVE_WINDOW_TRANSFORM_FLIP_V ≠ 0) := by decide
  have hR : ¬(0 &&& NATIVE_WINDOW_TRANSFORM_ROT_90 ≠ 0) := by decide
  simp only [computeCurrentTransformMatrix, hp, if_neg hH, if_neg hV, if_neg hR]
  ext <;> norm_num [mtxMul, mtxFlipV, mtxIdentity]

/-! ## Consumer state (fields of `SurfaceTexture`, lines 107-135)

`status_t` values are modelled symbolically by the named constants the
source returns (`NO_ERROR`/`OK`, `NO_INIT`, `BAD_VALUE`, `-EINVAL`); other
buffer-queue statuses are carried by `err`. -/

inductive Status where
  | ok : Status
  | noInit : Status
  | badValue : Status
  | einval : Status
  | err : Int → Status
deriving DecidableEq

/-- A native graphics buffer handle (`sp<GraphicBuffer>`), carrying the
dimensions the transform composer reads through `getWidth`/`getHeight`. -/
structure GraphicBuffer where
  width : Nat
  height : Nat
  handle : Nat
deriving DecidableEq

/-- One record of the slot table (`struct EGLSlot`): optional native buffer,
GPU image handle (`0 = EGL_NO_IMAGE_KHR`), read fence
(`0 = EGL_NO_SYNC_KHR`). -/
structure EGLSlot where
  mGraphicBuffer : Option GraphicBuffer
  mEglImage : Nat
  mFence : Nat
deriving DecidableEq

def EGL_NO_DISPLAY : Nat := 0

def EGL_NO_CONTEXT : Nat := 0

def EGL_NO_IMAGE : Nat := 0

def EGL_NO_SYNC : Nat := 0

/-- Modelled from the spec: the fixed slot-table bound
(`BufferQueue::NUM_BUFFER_SLOTS`, not under `src/`; the spec gives
"fixed upper bound, typically 32"). -/
abbrev NUM_BUFFER_SLOTS : Nat := 32

/-- Modelled from the spec: the sentinel slot index
(`BufferQueue::INVALID_BUFFER_SLOT`, not under `src/`), an index that is
outside the slot table; the platform value is -1. -/
def INVALID_BUFFER_SLOT : Int := -1

/-- Externally observable actions the state machine performs, in program
order: clearing a slot's native-buffer reference, destroying a GPU image,
binding the texture object, and releasing a slot back to the buffer queue.
A `releaseBuffer` fence of `none` records that the fence argument was read
from a slot index outside the table bounds (an out-of-bounds read in the
source). -/
inductive Event where
  | clearBuffer : Nat → Event
  | destroyImage : Nat → Nat → Event
  | bindTexture : Nat → Nat → Event
  | releaseBuffer : Int → Nat → Option Nat → Event
deriving DecidableEq

/-- The mutable consumer state of `SurfaceTexture`. `mBufferQueue` models
whether the `sp<BufferQueue>` reference is non-null (it is cleared by
`abandon`). -/
structure SurfaceTexture where
  mCurrentTransform : Nat
  mCurrentTimestamp : Int
  mTexName : Nat
  mUseFenceSync : Bool
  mTexTarget : Nat
  mEglDisplay : Nat
  mEglContext : Nat
  mAbandoned : Bool
  mCurrentTexture : Int
  mCurrentTextureBuf : Option GraphicBuffer
  mCurrentCrop : Rect
  mCurrentScalingMode : Nat
  mCurrentTransformMatrix : Mtx
  mEGLSlots : Fin NUM_BUFFER_SLOTS → EGLSlot
  mBufferQueue : Bool
  mName : String

/-- Write one slot of the slot table. -/
def setSlot (st : SurfaceTexture) (i : Fin NUM_BUFFER_SLOTS) (v : EGLSlot) : SurfaceTexture :=
  { st with mEGLSlots := Function.update st.mEGLSlots i v }

/-- Read `mEGLSlots[i].mFence` at an `int` index, as the source does at
line 273; `none` when the index is outside the table (an out-of-bounds read
in the source). -/
def slotFenceI (st : SurfaceTexture) (i : Int) : Option Nat :=
  if h : 0 ≤ i ∧ i < 32 then some ((st.mEGLSlots ⟨i.toNat, by show i.toNat < 32; omega⟩).mFence) else none

/-- Write `mEGLSlots[i].mFence` at an `int` index (line 262); the write is
dropped when the index is outside the table. -/
def setFenceI (st : SurfaceTexture) (i : Int) (fence : Nat) : SurfaceTexture :=
  if h : 0 ≤ i ∧ i < 32 then
    setSlot st ⟨i.toNat, by show i.toNat < 32; omega⟩
      { st.mEGLSlots ⟨i.toNat, by show i.toNat < 32; omega⟩ with mFence := fence }
  else st

/-- `SurfaceTexture::freeBufferLocked` (lines 468-478): clear the slot's
native-buffer reference, then, if a GPU image is present, destroy it and
clear the handle. Returns the new state and the performed actions in
program order. -/
def freeBufferLocked (st : SurfaceTexture) (slotIndex : Fin NUM_BUFFER_SLOTS) :
    SurfaceTexture × List Event :=
  let st1 := setSlot st slotIndex { st.mEGLSlots slotIndex with mGraphicBuffer := none }
  if (st1.mEGLSlots slotIndex).mEglImage ≠ EGL_NO_IMAGE then
    let img := (st1.mEGLSlots slotIndex).mEglImage
    (setSlot st1 slotIndex { st1.mEGLSlots slotIndex with mEglImage := EGL_NO_IMAGE },
     [Event.clearBuffer slotIndex, Event.destroyImage st.mEglDisplay img])
  else
    (st1, [Event.clearBuffer slotIndex])

/-- The result state of `freeBufferLocked`: the slot holds no buffer, no
image, and keeps its fence; nothing else changes. -/
theorem freeBufferLocked_fst (st : SurfaceTexture) (i : Fin NUM_BUFFER_SLOTS) :
    (freeBufferLocked st i).1 =
      setSlot st i ⟨none, EGL_NO_IMAGE, (st.mEGLSlots i).mFence⟩ := by
  unfold freeBufferLocked
  by_cases h : (st.mEGLSlots i).mEglImage = EGL_NO_IMAGE <;>
    simp [setSlot, Function.update_same, Function.update_idem, h]

/-- The state established by the constructor (lines 107-135): transform 0,
timestamp 0, no EGL display/context, not abandoned, current slot
`INVALID_BUFFER_SLOT`, identity transform matrix, a connected buffer queue.
Slot-table entries start empty (the `EGLSlot` defaults of the class header,
which is not under `src/`, per the spec's data model). -/
def initialState (tex texTarget : Nat) (useFenceSync : Bool) : SurfaceTexture where
  mCurrentTransform := 0
  mCurrentTimestamp := 0
  mTexName := tex
  mUseFenceSync := useFenceSync
  mTexTarget := texTarget
  mEglDisplay := EGL_NO_DISPLAY
  mEglContext := EGL_NO_CONTEXT
  mAbandoned := false
  mCurrentTexture := INVALID_BUFFER_SLOT
  mCurrentTextureBuf := none
  mCurrentCrop := ⟨0, 0, 0, 0⟩
  mCurrentScalingMode := 0
  mCurrentTransformMatrix := mtxIdentity
  mEGLSlots := fun _ => ⟨none, EGL_NO_IMAGE, EGL_NO_SYNC⟩
  mBufferQueue := true
  mName := "unnamed"

/-- A concrete state exercising `freeBufferLocked`: display 2, slot 0 holding
a native buffer and the GPU image 5. -/
def stFree0 : SurfaceTexture :=
  setSlot { initialState 1 10 false with mEglDisplay := 2 } ⟨0, by decide⟩
    ⟨some ⟨4, 4, 9⟩, 5, 0⟩

/-- Counterexample to claim C9 as stated: freeing slot 0 of `stFree0`
performs the clear of the native-buffer reference BEFORE the destruction of
the GPU image, not after it as the claim requires. -/
theorem freeBufferLocked_order_cex :
    (freeBufferLocked stFree0 ⟨0, by decide⟩).2 =
      [Event.clearBuffer 0, Event.destroyImage 2 5]
    ∧ [Event.clearBuffer 0, Event.destroyImage 2 5] ≠
      [Event.destroyImage 2 5, Event.clearBuffer 0] := by
  constructor
  · decide
  · decide

/-- Claim C9 (corrected): freeing a slot whose GPU image is present first
clears the slot's native-buffer reference and THEN destroys the GPU image
(the claimed order is reversed); afterwards both fields are empty, and the
operation is idempotent. -/
theorem freeBufferLocked_clear_then_destroy (st : SurfaceTexture)
    (i : Fin NUM_BUFFER_SLOTS)
    (himg : (st.mEGLSlots i).mEglImage ≠ EGL_NO_IMAGE) :
    (freeBufferLocked st i).2 =
      [Event.clearBuffer i, Event.destroyImage st.mEglDisplay ((st.mEGLSlots i).mEglImage)]
    ∧ ((freeBufferLocked st i).1.mEGLSlots i).mGraphicBuffer = none
    ∧ ((freeBufferLocked st i).1.mEGLSlots i).mEglImage = EGL_NO_IMAGE
    ∧ freeBufferLocked (freeBufferLocked st i).1 i =
        ((freeBufferLocked st i).1, [Event.clearBuffer i]) := by
  refine ⟨?_, ?_, ?_, ?_⟩
  · unfold freeBufferLocked
    simp [setSlot, Function.update_same, himg]
  · rw [freeBufferLocked_fst]
    simp [setSlot, Function.update_same]
  · rw [freeBufferLocked_fst]
    simp [setSlot, Function.update_same]
  · rw [freeBufferLocked_fst st i]
    unfold freeBufferLocked
    simp [setSlot, Function.update_same, Function.update_idem]

/-- Witness for C9's amended claim at `stFree0`, slot 0. -/
theorem freeBufferLocked_clear_then_destroy_witness :
    (stFree0.mEGLSlots ⟨0, by decide⟩).mEglImage ≠ EGL_NO_IMAGE
    ∧ ((freeBufferLocked stFree0 ⟨0, by decide⟩).2 =
        [Event.clearBuffer (⟨0, by decide⟩ : Fin NUM_BUFFER_SLOTS),
         Event.destroyImage stFree0.mEglDisplay
           ((stFree0.mEGLSlots ⟨0, by decide⟩).mEglImage)]
      ∧ ((freeBufferLocked stFree0 ⟨0, by decide⟩).1.mEGLSlots ⟨0, by decide⟩).mGraphicBuffer = none
      ∧ ((freeBufferLocked stFree0 ⟨0, by decide⟩).1.mEGLSlots ⟨0, by decide⟩).mEglImage = EGL_NO_IMAGE
      ∧ freeBufferLocked (freeBufferLocked stFree0 ⟨0, by decide⟩).1 ⟨0, by decide⟩ =
          ((freeBufferLocked stFree0 ⟨0, by decide⟩).1,
           [Event.clearBuffer (⟨0, by decide⟩ : Fin NUM_BUFFER_SLOTS)])) :=
  ⟨by decide, freeBufferLocked_clear_then_destroy stFree0 ⟨0, by decide⟩ (by decide)⟩

/-! ## External environment and buffer items -/

/-- `BufferQueue::BufferItem` as filled by a successful `acquireBuffer`
(line 199): slot index, optional newly-allocated native buffer, crop,
transform flags, scaling mode, timestamp. A successful acquire always
carries a valid slot index (the queue's contract), hence `Fin`. -/
structure BufferItem where
  mBuf : Fin NUM_BUFFER_SLOTS
  mGraphicBuffer : Option GraphicBuffer
  mCrop : Rect
  mTransform : Nat
  mScalingMode : Nat
  mTimestamp : Int
deriving DecidableEq

/-- Modelled from the spec: the results of the external calls one operation
makes - the current EGL display/context, the buffer queue's `acquireBuffer`
status and item, `eglCreateImageKHR` result, whether the GL bind reports an
error, the `eglCreateSyncKHR` result, the status of delegated queue calls,
`isSynchronousMode`, and the `getReleasedBuffers` mask. The queue and the
EGL/GL platform are external collaborators (spec section 6), not under
`src/`. -/
structure Env where
  dpy : Nat
  ctx : Nat
  acquireStatus : Status
  acquireItem : BufferItem
  createImageResult : Nat
  bindFails : Bool
  fenceResult : Nat
  queueStatus : Status
  syncMode : Bool
  releasedMask : Nat

/-- The transform recomputation of line 282: dimensions come from
`mCurrentTextureBuf` (dereferenced only for a non-empty crop; a null buffer
is modelled by zero dimensions). -/
def computeCurrentTransformMatrixSt (st : SurfaceTexture) : Mtx :=
  match st.mCurrentTextureBuf with
  | some gb => computeCurrentTransformMatrix st.mCurrentTransform st.mCurrentCrop gb.width gb.height
  | none => computeCurrentTransformMatrix st.mCurrentTransform st.mCurrentCrop 0 0

/-! ## `updateTexImage` (lines 173-293) -/

/-- Lines 266-292: release the previously-current slot (reading its fence at
the raw `int` index `mCurrentTexture`), then commit the newly-acquired
item's metadata and recompute the transform matrix. -/
def updateTexImageCommit (env : Env) (st : SurfaceTexture) (item : BufferItem)
    (evs : List Event) : SurfaceTexture × Status × List Event :=
  let evs1 := evs ++ [Event.releaseBuffer st.mCurrentTexture env.dpy (slotFenceI st st.mCurrentTexture)]
  let st1 := { st with
    mCurrentTexture := ((item.mBuf : Nat) : Int)
    mCurrentTextureBuf := (st.mEGLSlots item.mBuf).mGraphicBuffer
    mCurrentCrop := item.mCrop
    mCurrentTransform := item.mTransform
    mCurrentScalingMode := item.mScalingMode
    mCurrentTimestamp := item.mTimestamp }
  let st2 := { st1 with mCurrentTransformMatrix := computeCurrentTransformMatrixSt st1 }
  (st2, Status.ok, evs1)

/-- Lines 231-264: bind the texture and attach `image`; on a GL error,
release the acquired slot with its existing fence and fail. Then, when a
current slot exists and fence sync is enabled, create a read fence: on
failure release the acquired slot and fail, on success store the fence at
`mCurrentTexture` and continue to the commit. -/
def updateTexImageBind (env : Env) (st : SurfaceTexture) (item : BufferItem)
    (image : Nat) (evs : List Event) : SurfaceTexture × Status × List Event :=
  let buf := item.mBuf
  let evs1 := evs ++ [Event.bindTexture st.mTexTarget st.mTexName]
  if env.bindFails then
    (st, Status.einval,
     evs1 ++ [Event.releaseBuffer ((buf : Nat) : Int) env.dpy (some ((st.mEGLSlots buf).mFence))])
  else
    if st.mCurrentTexture ≠ INVALID_BUFFER_SLOT then
      if st.mUseFenceSync then
        if env.fenceResult = EGL_NO_SYNC then
          (st, Status.einval,
           evs1 ++ [Event.releaseBuffer ((buf : Nat) : Int) env.dpy (some ((st.mEGLSlots buf).mFence))])
        else
          updateTexImageCommit env (setFenceI st st.mCurrentTexture env.fenceResult) item evs1
      else updateTexImageCommit env st item evs1
    else updateTexImageCommit env st item evs1

/-- Lines 206-213: when the acquired item carries a newly-allocated native
buffer, clear the slot's buffer reference, destroy its stale GPU image if
present, and install the new buffer. -/
def installNewBuffer (env : Env) (st0 : SurfaceTexture) (item : BufferItem) :
    SurfaceTexture × List Event :=
  let buf := item.mBuf
  match item.mGraphicBuffer with
  | some gb =>
      let st1 := setSlot st0 buf { st0.mEGLSlots buf with mGraphicBuffer := none }
      let cleaned : SurfaceTexture × List Event :=
        if (st1.mEGLSlots buf).mEglImage ≠ EGL_NO_IMAGE then
          (setSlot st1 buf { st1.mEGLSlots buf with mEglImage := EGL_NO_IMAGE },
           [Event.destroyImage env.dpy ((st1.mEGLSlots buf).mEglImage)])
        else (st1, [])
      (setSlot cleaned.1 buf { cleaned.1.mEGLSlots buf with mGraphicBuffer := some gb },
       cleaned.2)
  | none => (st0, [])

/-- Lines 204-292, the branch where `acquireBuffer` succeeded: install a
newly-allocated native buffer into the slot (destroying any prior image),
create a GPU image when the slot has none (`BAD_VALUE` when the item has no
buffer either, `-EINVAL` when creation fails, each without releasing the
slot), then bind and commit. -/
def updateTexImageAcquired (env : Env) (st0 : SurfaceTexture) (item : BufferItem) :
    SurfaceTexture × Status × List Event :=
  let buf := item.mBuf
  let installed := installNewBuffer env st0 item
  let st2 := installed.1
  let evs0 := installed.2
  let image0 := (st2.mEGLSlots buf).mEglImage
  if image0 = EGL_NO_IMAGE then
    match item.mGraphicBuffer with
    | none => (st2, Status.badValue, evs0)
    | some _ =>
        let image1 := env.createImageResult
        let st3 := setSlot st2 buf { st2.mEGLSlots buf with mEglImage := image1 }
        if image1 = EGL_NO_IMAGE then (st3, Status.einval, evs0)
        else updateTexImageBind env st3 item image1 evs0
  else updateTexImageBind env st2 item image0 evs0

/-- `SurfaceTexture::updateTexImage` (lines 173-293): fail with `NO_INIT`
when abandoned; fail with `-EINVAL` on a display or context mismatch; latch
the current display/context; then either run the acquired-buffer path, or -
when `acquireBuffer` did not return `NO_ERROR` - just bind the existing
texture and return `OK`. -/
def updateTexImage (env : Env) (st : SurfaceTexture) : SurfaceTexture × Status × List Event :=
  if st.mAbandoned then (st, Status.noInit, [])
  else if st.mEglDisplay ≠ env.dpy ∧ st.mEglDisplay ≠ EGL_NO_DISPLAY then
    (st, Status.einval, [])
  else if st.mEglContext ≠ env.ctx ∧ st.mEglContext ≠ EGL_NO_CONTEXT then
    (st, Status.einval, [])
  else
    let stL := { st with mEglDisplay := env.dpy, mEglContext := env.ctx }
    if env.acquireStatus = Status.ok then
      updateTexImageAcquired env stL env.acquireItem
    else
      (stL, Status.ok, [Event.bindTexture stL.mTexTarget stL.mTexName])

/-! ## `abandon` (lines 480-497) and queue-delegating operations -/

/-- One iteration of the slot sweep of `abandon` (lines 489-491). -/
def freeAllStep (acc : SurfaceTexture × List Event) (i : Fin NUM_BUFFER_SLOTS) :
    SurfaceTexture × List Event :=
  let r := freeBufferLocked acc.1 i
  (r.1, acc.2 ++ r.2)

/-- `SurfaceTexture::abandon` (lines 480-497): when not yet abandoned, set
the flag, drop the current buffer reference, free every slot, and drop the
buffer-queue reference. Idempotent. -/
def abandon (st : SurfaceTexture) : SurfaceTexture × List Event :=
  if st.mAbandoned = false then
    let st1 := { st with mAbandoned := true, mCurrentTextureBuf := none }
    let folded := (List.finRange NUM_BUFFER_SLOTS).foldl freeAllStep (st1, [])
    ({ folded.1 with mBufferQueue := false }, folded.2)
  else (st, [])

/-- `SurfaceTexture::setDefaultBufferSize` (lines 167-171): an unconditional
delegation to `mBufferQueue` with no abandoned-check; after `abandon` the
queue reference is null and the call dereferences it, modelled as result
`none`. -/
def setDefaultBufferSize (env : Env) (st : SurfaceTexture) (w h : Nat) :
    SurfaceTexture × Option Status :=
  if st.mBufferQueue then (st, some env.queueStatus) else (st, none)

/-- `SurfaceTexture::setName` (lines 499-503): stores the name, then
delegates to `mBufferQueue` with no abandoned-check (null dereference after
`abandon`, modelled as `none`). -/
def setName (st : SurfaceTexture) (name : String) : SurfaceTexture × Option Unit :=
  let st1 := { st with mName := name }
  if st1.mBufferQueue then (st1, some ()) else (st1, none)

/-- `SurfaceTexture::isSynchronousMode` (lines 463-466): an unconditional
delegation to `mBufferQueue` (null dereference after `abandon`, modelled as
`none`). -/
def isSynchronousMode (env : Env) (st : SurfaceTexture) : Option Bool :=
  if st.mBufferQueue then some env.syncMode else none

/-! ## `onBuffersReleased` (lines 561-580) -/

/-- One iteration of the reclaimed-slot sweep (lines 573-577): free the slot
when its bit is set in the released mask. -/
def releasedStep (mask : Nat) (acc : SurfaceTexture × List Event)
    (i : Fin NUM_BUFFER_SLOTS) : SurfaceTexture × List Event :=
  if mask &&& (1 <<< (i : Nat)) ≠ 0 then
    let r := freeBufferLocked acc.1 i
    (r.1, acc.2 ++ r.2)
  else acc

/-- `SurfaceTexture::onBuffersReleased` (lines 561-580): a no-op when
abandoned; otherwise free every slot whose bit is set in the queue's
released mask and reset `mCurrentTexture` to the sentinel. -/
def onBuffersReleased (env : Env) (st : SurfaceTexture) : SurfaceTexture × List Event :=
  if st.mAbandoned then (st, [])
  else
    let folded := (List.finRange NUM_BUFFER_SLOTS).foldl (releasedStep env.releasedMask) (st, [])
    ({ folded.1 with mCurrentTexture := INVALID_BUFFER_SLOT }, folded.2)

/-! ## Sweep lemmas -/

/-- The `abandon` slot sweep changes only the slot table. -/
theorem freeFold_fst (l : List (Fin NUM_BUFFER_SLOTS)) (acc : SurfaceTexture × List Event) :
    (l.foldl freeAllStep acc).1 =
      { acc.1 with mEGLSlots := (l.foldl freeAllStep acc).1.mEGLSlots } := by
  induction l generalizing acc with
  | nil => rfl
  | cons i l ih =>
      rw [List.foldl_cons, ih]
      simp only [freeAllStep, freeBufferLocked_fst, setSlot]

/-- The `onBuffersReleased` slot sweep changes only the slot table. -/
theorem relFold_fst (mask : Nat) (l : List (Fin NUM_BUFFER_SLOTS))
    (acc : SurfaceTexture × List Event) :
    (l.foldl (releasedStep mask) acc).1 =
      { acc.1 with mEGLSlots := (l.foldl (releasedStep mask) acc).1.mEGLSlots } := by
  induction l generalizing acc with
  | nil => rfl
  | cons i l ih =>
      rw [List.foldl_cons, ih]
      by_cases h : mask &&& (1 <<< (i : Nat)) ≠ 0
      · simp only [releasedStep, if_pos h, freeBufferLocked_fst, setSlot]
      · simp only [releasedStep, if_neg h]

/-- Slotwise effect of the `onBuffersReleased` sweep: a slot visited with its
mask bit set ends empty with its fence kept; other slots are untouched. -/
theorem relFold_slots (mask : Nat) (l : List (Fin NUM_BUFFER_SLOTS))
    (acc : SurfaceTexture × List Event) (j : Fin NUM_BUFFER_SLOTS) :
    (l.foldl (releasedStep mask) acc).1.mEGLSlots j =
      if j ∈ l ∧ mask &&& (1 <<< (j : Nat)) ≠ 0 then
        ⟨none, EGL_NO_IMAGE, (acc.1.mEGLSlots j).mFence⟩
      else acc.1.mEGLSlots j := by
  induction l generalizing acc with
  | nil => simp
  | cons i l ih =>
      rw [List.foldl_cons, ih]
      have hstep : (releasedStep mask acc i).1.mEGLSlots j =
          if j = i ∧ mask &&& (1 <<< (j : Nat)) ≠ 0 then
            ⟨none, EGL_NO_IMAGE, (acc.1.mEGLSlots j).mFence⟩
          else acc.1.mEGLSlots j := by
        by_cases hb : mask &&& (1 <<< (i : Nat)) ≠ 0
        · simp only [releasedStep, if_pos hb, freeBufferLocked_fst, setSlot]
          by_cases hj : j = i
          · subst hj
            simp [Function.update_same, hb]
          · simp [Function.update_noteq hj, hj]
        · simp only [releasedStep, if_neg hb]
          by_cases hj : j = i
          · subst hj
            simp [hb]
          · simp [hj]
      rw [hstep]
      by_cases hB : mask &&& (1 <<< (j : Nat)) ≠ 0 <;>
        by_cases hl : j ∈ l <;>
          by_cases hj : j = i <;>
            simp_all [List.mem_cons]

/-- The state after a first `abandon`: the flag is set, the current buffer
and the queue reference are dropped, and only the slot table changes
otherwise. -/
theorem abandon_fst (st : SurfaceTexture) (hab : st.mAbandoned = false) :
    (abandon st).1 =
      { st with mAbandoned := true, mCurrentTextureBuf := none, mBufferQueue := false,
                mEGLSlots := (abandon st).1.mEGLSlots } := by
  simp only [abandon, hab, if_true]
  conv_lhs => rw [freeFold_fst]

/-! ## Claim theorems: abandon and the buffers-released callback -/

/-- A buffer item for concrete runs: slot 0, no new allocation, empty crop. -/
def itemBase : BufferItem := ⟨⟨0, by decide⟩, none, ⟨0, 0, 0, 0⟩, 0, 0, 0⟩

/-- A concrete environment for witnesses: display 1, context 1, successful
acquire of `itemBase`, failing image creation, healthy bind, no fence,
released mask 0b111. -/
def envBase : Env :=
  ⟨1, 1, Status.ok, itemBase, EGL_NO_IMAGE, false, EGL_NO_SYNC, Status.ok, false, 7⟩

/-- Counterexample to claim C1 as stated: after `abandon`, the public
operation `setDefaultBufferSize` does NOT return `NOT_INITIALIZED` - the
source checks no abandoned flag there and dereferences the cleared
buffer-queue reference (modelled as `none`). -/
theorem abandoned_setDefaultBufferSize_cex :
    (setDefaultBufferSize envBase (abandon (initialState 1 10 false)).1 4 4).2 ≠
      some Status.noInit := by
  decide

/-- Claim C1 (corrected): after `abandon`, `updateTexImage` is a no-op
returning `NOT_INITIALIZED` and `onBuffersReleased` is a no-op, but the
queue-delegating operations (`setDefaultBufferSize`, `setName`,
`isSynchronousMode`) perform no abandoned-check: they dereference the
cleared queue reference (modelled as result `none`) instead of returning
`NOT_INITIALIZED`, and `setName` still overwrites the name. -/
theorem abandoned_operations (env : Env) (st : SurfaceTexture) (w hgt : Nat)
    (nm : String) (hab : st.mAbandoned = false) :
    (abandon st).1.mAbandoned = true
    ∧ updateTexImage env (abandon st).1 = ((abandon st).1, Status.noInit, [])
    ∧ setDefaultBufferSize env (abandon st).1 w hgt = ((abandon st).1, none)
    ∧ isSynchronousMode env (abandon st).1 = none
    ∧ setName (abandon st).1 nm = ({ (abandon st).1 with mName := nm }, none)
    ∧ onBuffersReleased env (abandon st).1 = ((abandon st).1, []) := by
  have h1 : (abandon st).1.mAbandoned = true := by
    rw [abandon_fst st hab]
  have h2 : (abandon st).1.mBufferQueue = false := by
    rw [abandon_fst st hab]
  refine ⟨h1, ?_, ?_, ?_, ?_, ?_⟩
  · simp [updateTexImage, h1]
  · simp [setDefaultBufferSize, h2]
  · simp [isSynchronousMode, h2]
  · simp [setName, h2]
  · simp [onBuffersReleased, h1]

/-- Witness for C1's amended claim at a freshly constructed instance. -/
theorem abandoned_operations_witness :
    (initialState 1 10 false).mAbandoned = false
    ∧ ((abandon (initialState 1 10 false)).1.mAbandoned = true
      ∧ updateTexImage envBase (abandon (initialState 1 10 false)).1 =
          ((abandon (initialState 1 10 false)).1, Status.noInit, [])
      ∧ setDefaultBufferSize envBase (abandon (initialState 1 10 false)).1 4 4 =
          ((abandon (initialState 1 10 false)).1, none)
      ∧ isSynchronousMode envBase (abandon (initialState 1 10 false)).1 = none
      ∧ setName (abandon (initialState 1 10 false)).1 "n" =
          ({ (abandon (initialState 1 10 false)).1 with mName := "n" }, none)
      ∧ onBuffersReleased envBase (abandon (initialState 1 10 false)).1 =
          ((abandon (initialState 1 10 false)).1, [])) :=
  ⟨by decide, abandoned_operations envBase (initialState 1 10 false) 4 4 "n" (by decide)⟩

/-- Claim C7 (confirmed): on a non-abandoned instance, after
`onBuffersReleased` with released mask `M`, every slot whose bit is set in
`M` has empty GPU image and empty native buffer, `mCurrentTexture` is the
sentinel, and the current frame metadata (buffer, crop, transform flags,
scaling mode, timestamp, matrix) is unchanged. -/
theorem onBuffersReleased_reclaim (env : Env) (st : SurfaceTexture)
    (hab : st.mAbandoned = false) :
    (∀ i : Fin NUM_BUFFER_SLOTS, env.releasedMask &&& (1 <<< (i : Nat)) ≠ 0 →
       ((onBuffersReleased env st).1.mEGLSlots i).mEglImage = EGL_NO_IMAGE
       ∧ ((onBuffersReleased env st).1.mEGLSlots i).mGraphicBuffer = none)
    ∧ (onBuffersReleased env st).1.mCurrentTexture = INVALID_BUFFER_SLOT
    ∧ (onBuffersReleased env st).1.mCurrentTextureBuf = st.mCurrentTextureBuf
    ∧ (onBuffersReleased env st).1.mCurrentCrop = st.mCurrentCrop
    ∧ (onBuffersReleased env st).1.mCurrentTransform = st.mCurrentTransform
    ∧ (onBuffersReleased env st).1.mCurrentScalingMode = st.mCurrentScalingMode
    ∧ (onBuffersReleased env st).1.mCurrentTimestamp = st.mCurrentTimestamp
    ∧ (onBuffersReleased env st).1.mCurrentTransformMatrix = st.mCurrentTransformMatrix := by
  constructor
  · intro i hbit
    have hs := relFold_slots env.releasedMask (List.finRange NUM_BUFFER_SLOTS) (st, []) i
    simp only [onBuffersReleased, hab, Bool.false_eq_true, if_false]
    simp [hs, List.mem_finRange, hbit]
  refine ⟨?_, ?_, ?_, ?_, ?_, ?_, ?_⟩ <;>
    simp only [onBuffersReleased, hab, Bool.false_eq_true, if_false] <;>
    first
      | rfl
      | ((conv_lhs => rw [relFold_fst]); try rfl)

/-- Witness for C7 at `stFree0` (slot 0 populated) and mask `0b111`. -/
theorem onBuffersReleased_reclaim_witness :
    stFree0.mAbandoned = false
    ∧ ((∀ i : Fin NUM_BUFFER_SLOTS, envBase.releasedMask &&& (1 <<< (i : Nat)) ≠ 0 →
          ((onBuffersReleased envBase stFree0).1.mEGLSlots i).mEglImage = EGL_NO_IMAGE
          ∧ ((onBuffersReleased envBase stFree0).1.mEGLSlots i).mGraphicBuffer = none)
      ∧ (onBuffersReleased envBase stFree0).1.mCurrentTexture = INVALID_BUFFER_SLOT
      ∧ (onBuffersReleased envBase stFree0).1.mCurrentTextureBuf = stFree0.mCurrentTextureBuf
      ∧ (onBuffersReleased envBase stFree0).1.mCurrentCrop = stFree0.mCurrentCrop
      ∧ (onBuffersReleased envBase stFree0).1.mCurrentTransform = stFree0.mCurrentTransform
      ∧ (onBuffersReleased envBase stFree0).1.mCurrentScalingMode = stFree0.mCurrentScalingMode
      ∧ (onBuffersReleased envBase stFree0).1.mCurrentTimestamp = stFree0.mCurrentTimestamp
      ∧ (onBuffersReleased envBase stFree0).1.mCurrentTransformMatrix =
          stFree0.mCurrentTransformMatrix) :=
  ⟨by decide, onBuffersReleased_reclaim envBase stFree0 (by decide)⟩

/-! ## Claim theorems: `updateTexImage` -/

/-- `setFenceI` only touches the slot table. -/
theorem setFenceI_egl (st : SurfaceTexture) (i : Int) (f : Nat) :
    (setFenceI st i f).mEglDisplay = st.mEglDisplay
    ∧ (setFenceI st i f).mEglContext = st.mEglContext := by
  unfold setFenceI
  split <;> exact ⟨rfl, rfl⟩

/-- The commit step never changes the latched display/context. -/
theorem commit_egl (env : Env) (st : SurfaceTexture) (item : BufferItem)
    (evs : List Event) :
    (updateTexImageCommit env st item evs).1.mEglDisplay = st.mEglDisplay
    ∧ (updateTexImageCommit env st item evs).1.mEglContext = st.mEglContext :=
  ⟨rfl, rfl⟩

/-- The bind step never changes the latched display/context. -/
theorem bind_egl (env : Env) (st : SurfaceTexture) (item : BufferItem)
    (image : Nat) (evs : List Event) :
    (updateTexImageBind env st item image evs).1.mEglDisplay = st.mEglDisplay
    ∧ (updateTexImageBind env st item image evs).1.mEglContext = st.mEglContext := by
  simp only [updateTexImageBind]
  split_ifs <;>
    first
      | exact ⟨rfl, rfl⟩
      | exact ⟨((commit_egl _ _ _ _).1).trans (setFenceI_egl _ _ _).1,
               ((commit_egl _ _ _ _).2).trans (setFenceI_egl _ _ _).2⟩
      | exact commit_egl _ _ _ _

/-- The acquired-buffer path never changes the latched display/context. -/
theorem installNewBuffer_egl (env : Env) (st0 : SurfaceTexture) (item : BufferItem) :
    (installNewBuffer env st0 item).1.mEglDisplay = st0.mEglDisplay
    ∧ (installNewBuffer env st0 item).1.mEglContext = st0.mEglContext := by
  rcases hgb : item.mGraphicBuffer with _ | gb
  · simp [installNewBuffer, hgb]
  · simp only [installNewBuffer, hgb]
    split_ifs <;> exact ⟨rfl, rfl⟩

/-- The acquired-buffer path never changes the latched display/context. -/
theorem acquired_egl (env : Env) (st : SurfaceTexture) (item : BufferItem) :
    (updateTexImageAcquired env st item).1.mEglDisplay = st.mEglDisplay
    ∧ (updateTexImageAcquired env st item).1.mEglContext = st.mEglContext := by
  have hi := installNewBuffer_egl env st item
  rcases hgb : item.mGraphicBuffer with _ | gb <;>
    simp only [updateTexImageAcquired, hgb] <;>
    split_ifs <;>
      first
        | exact ⟨rfl, rfl⟩
        | exact ⟨hi.1, hi.2⟩
        | exact ⟨((bind_egl _ _ _ _ _).1).trans hi.1,
                 ((bind_egl _ _ _ _ _).2).trans hi.2⟩

/-- Claim C8 (confirmed): on a non-abandoned instance, a current display that
differs from a previously-latched non-sentinel one makes `updateTexImage`
return `-EINVAL` with no state change; the same for the context; and when
both checks pass, the current display and context are stored into the state
(whatever happens later). -/
theorem updateTexImage_context_check (env : Env) (st : SurfaceTexture)
    (hab : st.mAbandoned = false) :
    (st.mEglDisplay ≠ env.dpy ∧ st.mEglDisplay ≠ EGL_NO_DISPLAY →
      updateTexImage env st = (st, Status.einval, []))
    ∧ ((st.mEglDisplay = env.dpy ∨ st.mEglDisplay = EGL_NO_DISPLAY) →
        st.mEglContext ≠ env.ctx ∧ st.mEglContext ≠ EGL_NO_CONTEXT →
        updateTexImage env st = (st, Status.einval, []))
    ∧ ((st.mEglDisplay = env.dpy ∨ st.mEglDisplay = EGL_NO_DISPLAY) →
       (st.mEglContext = env.ctx ∨ st.mEglContext = EGL_NO_CONTEXT) →
        (updateTexImage env st).1.mEglDisplay = env.dpy
        ∧ (updateTexImage env st).1.mEglContext = env.ctx) := by
  refine ⟨?_, ?_, ?_⟩
  · intro hmis
    simp [updateTexImage, hab, hmis]
  · intro hdok hmis
    have hd : ¬(st.mEglDisplay ≠ env.dpy ∧ st.mEglDisplay ≠ EGL_NO_DISPLAY) := by
      rcases hdok with h | h <;> simp [h]
    simp [updateTexImage, hab, hd, hmis]
  · intro hdok hcok
    have hd : ¬(st.mEglDisplay ≠ env.dpy ∧ st.mEglDisplay ≠ EGL_NO_DISPLAY) := by
      rcases hdok with h | h <;> simp [h]
    have hc : ¬(st.mEglContext ≠ env.ctx ∧ st.mEglContext ≠ EGL_NO_CONTEXT) := by
      rcases hcok with h | h <;> simp [h]
    by_cases hacq : env.acquireStatus = Status.ok
    · have he := acquired_egl env
        { st with mEglDisplay := env.dpy, mEglContext := env.ctx, mAbandoned := false }
        env.acquireItem
      simp only [updateTexImage, hab, Bool.false_eq_true, if_false,
        if_neg hd, if_neg hc, if_pos hacq]
      exact he
    · simp [updateTexImage, hab, hd, hc, hacq]

/-- Witness for C8 at a fresh instance (display and context still latched to
the sentinels) under `envBase`. -/
theorem updateTexImage_context_check_witness :
    (initialState 1 10 false).mAbandoned = false
    ∧ (((initialState 1 10 false).mEglDisplay ≠ envBase.dpy
          ∧ (initialState 1 10 false).mEglDisplay ≠ EGL_NO_DISPLAY →
        updateTexImage envBase (initialState 1 10 false) =
          (initialState 1 10 false, Status.einval, []))
      ∧ (((initialState 1 10 false).mEglDisplay = envBase.dpy
            ∨ (initialState 1 10 false).mEglDisplay = EGL_NO_DISPLAY) →
          (initialState 1 10 false).mEglContext ≠ envBase.ctx
            ∧ (initialState 1 10 false).mEglContext ≠ EGL_NO_CONTEXT →
          updateTexImage envBase (initialState 1 10 false) =
            (initialState 1 10 false, Status.einval, []))
      ∧ (((initialState 1 10 false).mEglDisplay = envBase.dpy
            ∨ (initialState 1 10 false).mEglDisplay = EGL_NO_DISPLAY) →
         ((initialState 1 10 false).mEglContext = envBase.ctx
            ∨ (initialState 1 10 false).mEglContext = EGL_NO_CONTEXT) →
          (updateTexImage envBase (initialState 1 10 false)).1.mEglDisplay = envBase.dpy
          ∧ (updateTexImage envBase (initialState 1 10 false)).1.mEglContext = envBase.ctx)) :=
  ⟨by decide, updateTexImage_context_check envBase (initialState 1 10 false) (by decide)⟩

/-- An environment whose `acquireBuffer` reports a generic queue error. -/
def envAcqErr : Env :=
  ⟨1, 1, Status.err (-38), itemBase, EGL_NO_IMAGE, false, EGL_NO_SYNC, Status.ok, false, 0⟩

/-- Counterexample to claim C3 as stated: an `acquireBuffer` error other than
"no buffer available" is NOT passed through - `updateTexImage` still returns
`OK` (the source only tests `acquireBuffer(&item) == NO_ERROR` and treats
every failure alike, lines 203 and 287-292). -/
theorem updateTexImage_error_passthrough_cex :
    (updateTexImage envAcqErr (initialState 1 10 false)).2.1 = Status.ok
    ∧ envAcqErr.acquireStatus = Status.err (-38)
    ∧ (updateTexImage envAcqErr (initialState 1 10 false)).2.1 ≠ envAcqErr.acquireStatus := by
  refine ⟨by decide, rfl, by decide⟩

/-- Claim C3 (corrected): whenever `acquireBuffer` does not return
`NO_ERROR` - whether it reports no buffer available or any other error -
`updateTexImage` still binds the existing texture to the target and returns
`OK` without touching the current frame state or the slot table; the queue's
error status is NOT passed through. -/
theorem updateTexImage_acquire_fail (env : Env) (st : SurfaceTexture)
    (hab : st.mAbandoned = false)
    (hdok : st.mEglDisplay = env.dpy ∨ st.mEglDisplay = EGL_NO_DISPLAY)
    (hcok : st.mEglContext = env.ctx ∨ st.mEglContext = EGL_NO_CONTEXT)
    (hacq : env.acquireStatus ≠ Status.ok) :
    (updateTexImage env st).2.1 = Status.ok
    ∧ (updateTexImage env st).2.2 = [Event.bindTexture st.mTexTarget st.mTexName]
    ∧ (updateTexImage env st).1.mCurrentTexture = st.mCurrentTexture
    ∧ (updateTexImage env st).1.mCurrentTextureBuf = st.mCurrentTextureBuf
    ∧ (updateTexImage env st).1.mCurrentCrop = st.mCurrentCrop
    ∧ (updateTexImage env st).1.mCurrentTransform = st.mCurrentTransform
    ∧ (updateTexImage env st).1.mCurrentScalingMode = st.mCurrentScalingMode
    ∧ (updateTexImage env st).1.mCurrentTimestamp = st.mCurrentTimestamp
    ∧ (updateTexImage env st).1.mCurrentTransformMatrix = st.mCurrentTransformMatrix
    ∧ (updateTexImage env st).1.mEGLSlots = st.mEGLSlots := by
  have hd : ¬(st.mEglDisplay ≠ env.dpy ∧ st.mEglDisplay ≠ EGL_NO_DISPLAY) := by
    rcases hdok with h | h <;> simp [h]
  have hc : ¬(st.mEglContext ≠ env.ctx ∧ st.mEglContext ≠ EGL_NO_CONTEXT) := by
    rcases hcok with h | h <;> simp [h]
  simp [updateTexImage, hab, hd, hc, hacq]

/-- Witness for C3's amended claim: a fresh instance under `envAcqErr`. -/
theorem updateTexImage_acquire_fail_witness :
    ((initialState 1 10 false).mAbandoned = false
      ∧ ((initialState 1 10 false).mEglDisplay = envAcqErr.dpy
          ∨ (initialState 1 10 false).mEglDisplay = EGL_NO_DISPLAY)
      ∧ ((initialState 1 10 false).mEglContext = envAcqErr.ctx
          ∨ (initialState 1 10 false).mEglContext = EGL_NO_CONTEXT)
      ∧ envAcqErr.acquireStatus ≠ Status.ok)
    ∧ ((updateTexImage envAcqErr (initialState 1 10 false)).2.1 = Status.ok
      ∧ (updateTexImage envAcqErr (initialState 1 10 false)).2.2 =
          [Event.bindTexture (initialState 1 10 false).mTexTarget
            (initialState 1 10 false).mTexName]
      ∧ (updateTexImage envAcqErr (initialState 1 10 false)).1.mCurrentTexture =
          (initialState 1 10 false).mCurrentTexture
      ∧ (updateTexImage envAcqErr (initialState 1 10 false)).1.mCurrentTextureBuf =
          (initialState 1 10 false).mCurrentTextureBuf
      ∧ (updateTexImage envAcqErr (initialState 1 10 false)).1.mCurrentCrop =
          (initialState 1 10 false).mCurrentCrop
      ∧ (updateTexImage envAcqErr (initialState 1 10 false)).1.mCurrentTransform =
          (initialState 1 10 false).mCurrentTransform
      ∧ (updateTexImage envAcqErr (initialState 1 10 false)).1.mCurrentScalingMode =
          (initialState 1 10 false).mCurrentScalingMode
      ∧ (updateTexImage envAcqErr (initialState 1 10 false)).1.mCurrentTimestamp =
          (initialState 1 10 false).mCurrentTimestamp
      ∧ (updateTexImage envAcqErr (initialState 1 10 false)).1.mCurrentTransformMatrix =
          (initialState 1 10 false).mCurrentTransformMatrix
      ∧ (updateTexImage envAcqErr (initialState 1 10 false)).1.mEGLSlots =
          (initialState 1 10 false).mEGLSlots) :=
  ⟨⟨by decide, by decide, by decide, by decide⟩,
   updateTexImage_acquire_fail envAcqErr (initialState 1 10 false)
     (by decide) (by decide) (by decide) (by decide)⟩

/-- An environment for the first `updateTexImage` after construction: the
queue hands out slot 0 with a newly-allocated 256x256 buffer, image creation
yields handle 3, the bind succeeds. -/
def envFirstFrame : Env :=
  ⟨1, 1, Status.ok,
   ⟨⟨0, by decide⟩, some ⟨256, 256, 7⟩, ⟨0, 0, 0, 0⟩, 0, 0, 0⟩,
   3, false, EGL_NO_SYNC, Status.ok, false, 0⟩

/-- Claim C4 (code bug): on the first successful acquire after construction,
`mCurrentTexture` is still the sentinel `INVALID_BUFFER_SLOT = -1`, yet line
272 executes `mBufferQueue->releaseBuffer(mCurrentTexture, dpy,
mEGLSlots[mCurrentTexture].mFence)` unconditionally: the slot table is read
at index -1 (out of bounds, recorded here as fence `none`) and
`releaseBuffer` is invoked with the sentinel slot index. The call still
returns `OK`. -/
theorem updateTexImage_releases_invalid_slot :
    Event.releaseBuffer INVALID_BUFFER_SLOT 1 none ∈
      (updateTexImage envFirstFrame (initialState 1 10 false)).2.2
    ∧ (updateTexImage envFirstFrame (initialState 1 10 false)).2.1 = Status.ok := by
  refine ⟨by decide, by decide⟩

/-! ## Claim C2: partial-failure semantics of `updateTexImage` -/

/-- The consumer-visible frame state: current slot, buffer, crop, transform
flags, scaling mode, timestamp and matrix. -/
def currentFrameState (st : SurfaceTexture) :
    Int × Option GraphicBuffer × Rect × Nat × Nat × Int × Mtx :=
  (st.mCurrentTexture, st.mCurrentTextureBuf, st.mCurrentCrop, st.mCurrentTransform,
   st.mCurrentScalingMode, st.mCurrentTimestamp, st.mCurrentTransformMatrix)

@[simp]
theorem currentFrameState_setSlot (st : SurfaceTexture) (i : Fin NUM_BUFFER_SLOTS)
    (v : EGLSlot) : currentFrameState (setSlot st i v) = currentFrameState st := rfl

/-- The GPU image handle `updateTexImage` binds for the acquired slot: the
freshly created one when the item carried a new buffer (install resets the
slot's image), else the slot's cached image. -/
def effectiveImage (env : Env) (st : SurfaceTexture) : Nat :=
  match env.acquireItem.mGraphicBuffer with
  | some _ => env.createImageResult
  | none => (st.mEGLSlots env.acquireItem.mBuf).mEglImage

theorem installNewBuffer_none (env : Env) (st0 : SurfaceTexture) (item : BufferItem)
    (h : item.mGraphicBuffer = none) :
    installNewBuffer env st0 item = (st0, []) := by
  simp [installNewBuffer, h]

theorem installNewBuffer_some (env : Env) (st0 : SurfaceTexture) (item : BufferItem)
    (gb : GraphicBuffer) (h : item.mGraphicBuffer = some gb) :
    installNewBuffer env st0 item =
      (setSlot st0 item.mBuf ⟨some gb, EGL_NO_IMAGE, (st0.mEGLSlots item.mBuf).mFence⟩,
       if (st0.mEGLSlots item.mBuf).mEglImage ≠ EGL_NO_IMAGE then
         [Event.destroyImage env.dpy ((st0.mEGLSlots item.mBuf).mEglImage)]
       else []) := by
  simp only [installNewBuffer, h]
  by_cases himg : (st0.mEGLSlots item.mBuf).mEglImage ≠ EGL_NO_IMAGE
  · simp [setSlot, Function.update_same, Function.update_idem, himg]
  · have h0 : (st0.mEGLSlots item.mBuf).mEglImage = EGL_NO_IMAGE := not_ne_iff.mp himg
    simp [setSlot, Function.update_same, Function.update_idem, himg, h0]

/-- When the bind step does not succeed, the state it returns is exactly its
input state and the acquired slot is released back to the queue. -/
theorem bind_partial_failure (env : Env) (st : SurfaceTexture) (item : BufferItem)
    (image : Nat) (evs : List Event)
    (herr : (updateTexImageBind env st item image evs).2.1 ≠ Status.ok) :
    (updateTexImageBind env st item image evs).1 = st
    ∧ ∃ f, Event.releaseBuffer ((item.mBuf : Nat) : Int) env.dpy f ∈
        (updateTexImageBind env st item image evs).2.2 := by
  simp only [updateTexImageBind] at herr ⊢
  split_ifs at herr ⊢ with h1 h2 h3 h4
  · exact ⟨rfl, some ((st.mEGLSlots item.mBuf).mFence), by simp⟩
  · exact ⟨rfl, some ((st.mEGLSlots item.mBuf).mFence), by simp⟩
  · exact absurd rfl herr
  · exact absurd rfl herr
  · exact absurd rfl herr

/-- Error analysis of the acquired-buffer path: on every surfaced error the
frame state is unchanged, an installed buffer stays installed, and the
acquired slot has been released back to the queue exactly when the error
arose at or after the bind (that is, when a usable image existed). -/
theorem acquired_partial_failure (env : Env) (st : SurfaceTexture) (item : BufferItem)
    (herr : (updateTexImageAcquired env st item).2.1 ≠ Status.ok) :
    currentFrameState (updateTexImageAcquired env st item).1 = currentFrameState st
    ∧ (∀ gb, item.mGraphicBuffer = some gb →
        ((updateTexImageAcquired env st item).1.mEGLSlots item.mBuf).mGraphicBuffer = some gb)
    ∧ ((∃ f, Event.releaseBuffer ((item.mBuf : Nat) : Int) env.dpy f ∈
          (updateTexImageAcquired env st item).2.2)
        ↔ (match item.mGraphicBuffer with
           | some _ => env.createImageResult
           | none => (st.mEGLSlots item.mBuf).mEglImage) ≠ EGL_NO_IMAGE) := by
  rcases hgb : item.mGraphicBuffer with _ | gb
  · have hin := installNewBuffer_none env st item hgb
    simp only [updateTexImageAcquired, hgb, hin] at herr ⊢
    by_cases himg : (st.mEGLSlots item.mBuf).mEglImage = EGL_NO_IMAGE
    · rw [if_pos himg] at herr ⊢
      refine ⟨rfl, by simp, ?_⟩
      simp [himg]
    · rw [if_neg himg] at herr ⊢
      have hb := bind_partial_failure env st item
        ((st.mEGLSlots item.mBuf).mEglImage) [] herr
      refine ⟨by rw [hb.1], by simp, ?_⟩
      exact iff_of_true hb.2 himg
  · have hin := installNewBuffer_some env st item gb hgb
    simp only [updateTexImageAcquired, hgb, hin] at herr ⊢
    have himg0 : ((setSlot st item.mBuf
        ⟨some gb, EGL_NO_IMAGE, (st.mEGLSlots item.mBuf).mFence⟩).mEGLSlots item.mBuf).mEglImage
        = EGL_NO_IMAGE := by
      simp [setSlot, Function.update_same]
    rw [if_pos himg0] at herr ⊢
    by_cases hcir : env.createImageResult = EGL_NO_IMAGE
    · rw [if_pos hcir] at herr ⊢
      refine ⟨by simp, ?_, ?_⟩
      · intro gb2 hgb2
        injection hgb2 with hgb2e
        subst hgb2e
        simp [setSlot, Function.update_same, Function.update_idem]
      · apply iff_of_false
        · rintro ⟨f, hf⟩
          by_cases hold : (st.mEGLSlots item.mBuf).mEglImage ≠ EGL_NO_IMAGE
          · rw [if_pos hold] at hf
            simp at hf
          · rw [if_neg hold] at hf
            simp at hf
        · simp [hcir]
    · rw [if_neg hcir] at herr ⊢
      have hb := bind_partial_failure env _ item env.createImageResult _ herr
      refine ⟨by rw [hb.1]; simp, ?_, ?_⟩
      · intro gb2 hgb2
        injection hgb2 with hgb2e
        subst hgb2e
        rw [hb.1]
        simp [setSlot, Function.update_same, Function.update_idem]
      · exact iff_of_true hb.2 hcir

/-- Counterexample to claim C2 as stated: with an empty slot and an acquired
item carrying no buffer, `updateTexImage` surfaces `BAD_VALUE` (line 220)
with an empty action trace - in particular the acquired slot is NOT released
back to the queue, contradicting exception (b) of the claim. The
image-creation failure at line 227 likewise returns without a release. -/
theorem updateTexImage_no_release_cex :
    (updateTexImage envBase (initialState 1 10 false)).2.1 = Status.badValue
    ∧ (updateTexImage envBase (initialState 1 10 false)).2.2 = [] := by
  refine ⟨by decide, by decide⟩

/-- Claim C2 (corrected): on every surfaced error of the acquired-buffer
path of `updateTexImage`, the consumer frame state (current slot, buffer,
crop, transform flags, scaling mode, timestamp, matrix) is unchanged and a
newly-installed native buffer for the acquired slot remains installed; but
the acquired slot is released back to the queue only when the error arose at
the bind or at fence creation (equivalently: when a usable GPU image
existed) - on `BAD_VALUE` and on image-creation failure it is NOT
released. -/
theorem updateTexImage_partial_failure (env : Env) (st : SurfaceTexture)
    (hab : st.mAbandoned = false)
    (hdok : st.mEglDisplay = env.dpy ∨ st.mEglDisplay = EGL_NO_DISPLAY)
    (hcok : st.mEglContext = env.ctx ∨ st.mEglContext = EGL_NO_CONTEXT)
    (hacq : env.acquireStatus = Status.ok)
    (herr : (updateTexImage env st).2.1 ≠ Status.ok) :
    currentFrameState (updateTexImage env st).1 = currentFrameState st
    ∧ (∀ gb, env.acquireItem.mGraphicBuffer = some gb →
        ((updateTexImage env st).1.mEGLSlots env.acquireItem.mBuf).mGraphicBuffer = some gb)
    ∧ ((∃ f, Event.releaseBuffer ((env.acquireItem.mBuf : Nat) : Int) env.dpy f ∈
          (updateTexImage env st).2.2)
        ↔ effectiveImage env st ≠ EGL_NO_IMAGE) := by
  have hd : ¬(st.mEglDisplay ≠ env.dpy ∧ st.mEglDisplay ≠ EGL_NO_DISPLAY) := by
    rcases hdok with h | h <;> simp [h]
  have hc : ¬(st.mEglContext ≠ env.ctx ∧ st.mEglContext ≠ EGL_NO_CONTEXT) := by
    rcases hcok with h | h <;> simp [h]
  simp only [updateTexImage, hab, Bool.false_eq_true, if_false,
    if_neg hd, if_neg hc, if_pos hacq] at herr ⊢
  exact acquired_partial_failure env _ env.acquireItem herr

/-- An environment whose bind step fails after a successful image creation
for a newly-installed buffer in slot 0. -/
def envBindFail : Env :=
  ⟨1, 1, Status.ok,
   ⟨⟨0, by decide⟩, some ⟨256, 256, 7⟩, ⟨0, 0, 0, 0⟩, 0, 0, 0⟩,
   3, true, EGL_NO_SYNC, Status.ok, false, 0⟩

/-- Witness for C2's amended claim on the bind-failure path. -/
theorem updateTexImage_partial_failure_witness :
    ((initialState 1 10 false).mAbandoned = false
      ∧ envBindFail.acquireStatus = Status.ok
      ∧ (updateTexImage envBindFail (initialState 1 10 false)).2.1 ≠ Status.ok)
    ∧ (currentFrameState (updateTexImage envBindFail (initialState 1 10 false)).1 =
        currentFrameState (initialState 1 10 false)
      ∧ (∀ gb, envBindFail.acquireItem.mGraphicBuffer = some gb →
          ((updateTexImage envBindFail (initialState 1 10 false)).1.mEGLSlots
            envBindFail.acquireItem.mBuf).mGraphicBuffer = some gb)
      ∧ ((∃ f, Event.releaseBuffer ((envBindFail.acquireItem.mBuf : Nat) : Int)
            envBindFail.dpy f ∈
            (updateTexImage envBindFail (initialState 1 10 false)).2.2)
          ↔ effectiveImage envBindFail (initialState 1 10 false) ≠ EGL_NO_IMAGE)) :=
  ⟨⟨by decide, by decide, by decide⟩,
   updateTexImage_partial_failure envBindFail (initialState 1 10 false)
     (by decide) (by decide) (by decide) (by decide) (by decide)⟩
